import Mathlib

/-!
Verification of the two build/test orchestration scripts of the repository:
`build_test_all.py` (the full test runner, namespace `BuildTestAll`) and
`test_working_modules.py` (the quick probe, namespace `QuickTest`).

The scripts shell out to an external build tool (`cargo`).  We model each
subprocess invocation as a query to an oracle `Env : Nat → Invocation → ProcOutcome`:
the oracle receives the index of the call (how many subprocess calls happened
before it) together with the command line, working directory and timeout of the
invocation, and answers with what the external process did — a normal exit with
a return code and captured output, a timeout, or a raised invocation exception.
Every run threads an explicit state that carries the accumulated bookkeeping of
the script plus the trace of the invocations that were issued.
-/

/-- Outcome of one `subprocess.run` call, as observed by the Python scripts:
either the process completed with a return code and captured streams, or the
call raised `TimeoutExpired`, or it raised some other exception with message
`msg` (e.g. a missing executable). -/
inductive ProcOutcome where
  | completed (returncode : Int) (stdout : String) (stderr : String)
  | timedOut
  | exc (msg : String)
  deriving DecidableEq, Repr

/-- One subprocess invocation as issued by the scripts: the command line, the
working directory, and the wall-clock timeout (in seconds) passed to
`subprocess.run`. -/
structure Invocation where
  cmd : List String
  cwd : String
  timeoutSecs : Nat
  deriving DecidableEq, Repr

/-- The external world: for each call index and invocation, what the external
process does. -/
abbrev Env : Type := Nat → Invocation → ProcOutcome

/-- `startsWithChars needle hay`: `needle` is a prefix of `hay` (character lists). -/
def startsWithChars : List Char → List Char → Bool
  | [], _ => true
  | _ :: _, [] => false
  | a :: as, b :: bs => a == b && startsWithChars as bs

/-- `containsChars needle hay`: `needle` occurs contiguously in `hay`. -/
def containsChars (needle : List Char) : List Char → Bool
  | [] => startsWithChars needle []
  | b :: bs => startsWithChars needle (b :: bs) || containsChars needle bs

/-- Python's substring test `pat in hay`. -/
def pyContains (hay pat : String) : Bool :=
  containsChars pat.data hay.data

/-- Python's `str.lower()` (ASCII case mapping; the markers and the tool
output the scripts scan are ASCII). -/
def pyLower (s : String) : String :=
  ⟨s.data.map Char.toLower⟩

/-- Python's `str.strip()`: drop whitespace from both ends. -/
def pyStrip (s : String) : String :=
  ⟨(((s.data.dropWhile Char.isWhitespace).reverse.dropWhile Char.isWhitespace)).reverse⟩

/-- Python's `str.split('\n')` on character lists: `n` separators yield
`n + 1` pieces, empty pieces kept. -/
def splitNl : List Char → List (List Char)
  | [] => [[]]
  | c :: cs =>
    if c = '\n' then [] :: splitNl cs
    else
      match splitNl cs with
      | [] => [[c]]
      | l :: ls => (c :: l) :: ls

/-- Python's `str.split('\n')`. -/
def pySplitNl (s : String) : List String :=
  (splitNl s.data).map (fun l => ⟨l⟩)

namespace BuildTestAll

/-- One row of the module registry `self.modules` of `build_test_all.py`:
the declared example names, the optional feature-flag string, the optional
list of example names that need the `full` feature set (`features_examples`,
`none` when the key is absent), the declared binary targets (`[]` when the
key is absent), and the test-only marker (`false` when the key is absent). -/
structure ModuleConfig where
  examples : List String
  features : Option String
  features_examples : Option (List String) := none
  binaries : List String := []
  test_only : Bool := false
  deriving DecidableEq, Repr

/-- The static module registry `self.modules`, in declaration order. -/
def modules : List (String × ModuleConfig) :=
  [("blinky", { examples := [], features := none }),
   ("bme280-embassy",
    { examples := ["basic_reading", "full_system", "hal_integration"], features := none }),
   ("wifi-embassy",
    { examples := ["simple_connect", "wifi_test", "wifi_test_new", "wifi_mqtt_test"],
      features := none }),
   ("wifi-synchronous",
    { examples := ["simple_wifi_sync", "wifi_manager_sync"], features := none }),
   ("serial-console-embassy",
    { examples := ["basic_console", "simple_working_console", "direct_usb_console",
                   "usb_bridge_console", "system_console"],
      features := none, features_examples := some ["system_console"] }),
   ("mqtt-embassy",
    { examples := ["basic_mqtt", "mqtt_test", "mqtt_test_working"],
      features := some "examples" }),
   ("main-app",
    { examples := [], features := none, binaries := ["main", "main_container"] }),
   ("iot-common",
    { examples := ["error_conversion", "error_handling"], features := none }),
   ("iot-container", { examples := [], features := none, test_only := true }),
   ("iot-hal", { examples := [], features := none, test_only := true }),
   ("iot-performance", { examples := [], features := none, test_only := true }),
   ("bme280-tests", { examples := [], features := none, test_only := true })]

/-- One entry of `self.results`: the dictionary appended by `record_result`. -/
structure TestResult where
  description : String
  success : Bool
  stdout : String
  stderr : String
  warnings : List String
  deriving DecidableEq, Repr

/-- The mutable attributes of the `BuildTester` object. -/
structure BuildTester where
  workspace_root : String
  results : List TestResult
  total_tests : Nat
  passed_tests : Nat
  failed_tests : Nat
  warnings_count : Nat
  show_warnings : Bool
  deriving DecidableEq, Repr

/-- `BuildTester.__init__`: empty result log, zero counters, warnings shown. -/
def initTester (root : String) : BuildTester :=
  { workspace_root := root, results := [], total_tests := 0, passed_tests := 0,
    failed_tests := 0, warnings_count := 0, show_warnings := true }

/-- The state threaded through a run of the full runner: the tester object plus
the trace of subprocess invocations issued so far (the oracle is indexed by the
length of that trace). -/
structure RunState where
  tester : BuildTester
  trace : List Invocation
  deriving DecidableEq, Repr

/-- A fresh run state for workspace root `root`. -/
def initRun (root : String) : RunState :=
  { tester := initTester root, trace := [] }

/-- `run_command`, as a pure function of the subprocess outcome: success is
`returncode == 0` with both streams stripped; `TimeoutExpired` becomes a
failure with the synthetic timeout message; any other exception becomes a
failure with `"Command failed: " ++ msg` as the stderr component.  Every
constructor of `ProcOutcome` is handled — nothing propagates to the caller. -/
def run_command : ProcOutcome → Bool × String × String
  | ProcOutcome.completed rc so se => (rc == 0, pyStrip so, pyStrip se)
  | ProcOutcome.timedOut => (false, "", "Command timed out after 5 minutes")
  | ProcOutcome.exc m => (false, "", "Command failed: " ++ m)

/-- Issue one subprocess invocation of the full runner: query the oracle at the
current call index with timeout 300 seconds (`timeout=300` in the source),
convert the outcome through `run_command`, and append the invocation to the
trace. -/
def runCommandFull (env : Env) (st : RunState) (cmd : List String) (cwd : String) :
    (Bool × String × String) × RunState :=
  (run_command (env st.trace.length ⟨cmd, cwd, 300⟩),
   { st with trace := st.trace ++ [⟨cmd, cwd, 300⟩] })

/-- `clean_workspace`: run `cargo clean` in the workspace root and return its
success flag (the output is only printed). -/
def clean_workspace (env : Env) (st : RunState) : Bool × RunState :=
  let r := runCommandFull env st ["cargo", "clean"] st.tester.workspace_root
  (r.1.1, r.2)

/-- The six substring markers of `detect_warnings`. -/
def warning_patterns : List String :=
  ["warning:", "unused", "dead_code", "deprecated", "unreachable_code", "non_snake_case"]

/-- The inner loop of `detect_warnings` on one line: the line is collected iff
some marker occurs in its lowercased form (the `break` after the first match
makes the loop equivalent to an existence test, appending once per line). -/
def lineMatches (line : String) : Bool :=
  warning_patterns.any (fun p => pyContains (pyLower line) p)

/-- `detect_warnings`: split `stdout ++ "\n" ++ stderr` on newlines and collect
`line.strip()` for every line some marker matches, in order. -/
def detect_warnings (stdout stderr : String) : List String :=
  (pySplitNl (stdout ++ "\n" ++ stderr)).foldl
    (fun warnings line => if lineMatches line then warnings ++ [pyStrip line] else warnings) []

/-- `record_result`: bump the total, add the warning count (the `if warnings:`
guard is a no-op when the list is empty), bump passed or failed according to
`success`, and append the record to the result log. -/
def record_result (t : BuildTester) (description : String) (success : Bool)
    (stdout stderr : String) : BuildTester :=
  let warnings := detect_warnings stdout stderr
  { t with
    total_tests := t.total_tests + 1,
    warnings_count := if warnings.isEmpty then t.warnings_count
                      else t.warnings_count + warnings.length,
    passed_tests := if success then t.passed_tests + 1 else t.passed_tests,
    failed_tests := if success then t.failed_tests else t.failed_tests + 1,
    results := t.results ++ [⟨description, success, stdout, stderr, warnings⟩] }

/-- `test_workspace_build`: build from the workspace root (`--example ex` when
an example is given, otherwise `-p module`), record the attempt, return its
success flag.  `ex` stands for the Python parameter `example`. -/
def test_workspace_build (env : Env) (st : RunState) (module : String)
    (ex : Option String) (features : Option String) : Bool × RunState :=
  let cmd := ["cargo", "build"]
    ++ (match ex with | some e => ["--example", e] | none => ["-p", module])
    ++ (match features with | some f => ["--features", f] | none => [])
    ++ ["--release"]
  let description := "Workspace build: " ++ module
    ++ (match ex with | some e => " (example: " ++ e ++ ")" | none => "")
  let r := runCommandFull env st cmd st.tester.workspace_root
  (r.1.1, { r.2 with tester := record_result r.2.tester description r.1.1 r.1.2.1 r.1.2.2 })

/-- `test_module_build`: build from the module's own directory.  When the
directory does not exist (oracle `dirEx`), return `False` at once — no
subprocess runs and nothing is recorded.  Otherwise build (note: no `-p`
argument here) and record the attempt. -/
def test_module_build (env : Env) (dirEx : String → Bool) (st : RunState) (module : String)
    (ex : Option String) (features : Option String) : Bool × RunState :=
  let module_path := st.tester.workspace_root ++ "/" ++ module
  if !dirEx module_path then (false, st)
  else
    let cmd := ["cargo", "build"]
      ++ (match ex with | some e => ["--example", e] | none => [])
      ++ (match features with | some f => ["--features", f] | none => [])
      ++ ["--release"]
    let description := "Module build: " ++ module
      ++ (match ex with | some e => " (example: " ++ e ++ ")" | none => "")
    let r := runCommandFull env st cmd module_path
    (r.1.1, { r.2 with tester := record_result r.2.tester description r.1.1 r.1.2.1 r.1.2.2 })

/-- The per-example feature computation of `test_all_modules`: `"full"` when
the registry row has a `features_examples` list containing the example,
otherwise the row's `features` value. -/
def exampleFeatures (config : ModuleConfig) (ex : String) : Option String :=
  match config.features_examples with
  | some fe => if fe.contains ex then some "full" else config.features
  | none => config.features

/-- Body of the binary-target loop of `test_all_modules`: `main_container` is
skipped outright; any other binary gets a clean (result ignored), a
`cargo build --release --bin` from the workspace root, and a record. -/
def binaryStep (env : Env) (module : String) (st : RunState) (binary : String) : RunState :=
  if binary == "main_container" then st
  else
    let st1 := (clean_workspace env st).2
    let cmd := ["cargo", "build", "--release", "--bin", binary]
    let description := "Workspace build: " ++ module ++ " (binary: " ++ binary ++ ")"
    let r := runCommandFull env st1 cmd st1.tester.workspace_root
    { r.2 with tester := record_result r.2.tester description r.1.1 r.1.2.1 r.1.2.2 }

/-- Body of the first example loop of `test_all_modules`: clean (result
ignored), then a workspace build of the example with its feature override. -/
def exampleWsStep (env : Env) (module : String) (config : ModuleConfig)
    (st : RunState) (ex : String) : RunState :=
  let st1 := (clean_workspace env st).2
  (test_workspace_build env st1 module (some ex) (exampleFeatures config ex)).2

/-- Body of the second example loop of `test_all_modules`: clean (result
ignored), then a module-folder build of the example with its feature override. -/
def exampleModStep (env : Env) (dirEx : String → Bool) (module : String)
    (config : ModuleConfig) (st : RunState) (ex : String) : RunState :=
  let st1 := (clean_workspace env st).2
  (test_module_build env dirEx st1 module (some ex) (exampleFeatures config ex)).2

/-- One iteration of the module loop of `test_all_modules`: clean first and
skip the whole module when the clean fails (`continue`); skip test-only
modules; for a module with neither examples nor binaries, build from the
workspace, re-clean and build from the module folder; then the binary loop
and the two example loops (a loop over an empty list does nothing, exactly as
the guarded Python loops do). -/
def testModule (env : Env) (dirEx : String → Bool) (st : RunState)
    (module : String) (config : ModuleConfig) : RunState :=
  let c := clean_workspace env st
  if !c.1 then c.2
  else if config.test_only then c.2
  else
    let st1 :=
      if config.examples.isEmpty && config.binaries.isEmpty then
        let a := test_workspace_build env c.2 module none config.features
        let b := clean_workspace env a.2
        (test_module_build env dirEx b.2 module none config.features).2
      else c.2
    let st2 := config.binaries.foldl (binaryStep env module) st1
    let st3 := config.examples.foldl (exampleWsStep env module config) st2
    config.examples.foldl (exampleModStep env dirEx module config) st3

/-- `test_all_modules`: the module loop over the registry in declaration
order. -/
def test_all_modules (env : Env) (dirEx : String → Bool) (st : RunState) : RunState :=
  modules.foldl (fun s mc => testModule env dirEx s mc.1 mc.2) st

/-- The success-rate line of `generate_report`:
`(self.passed_tests/self.total_tests)*100`.  Python float division is modelled
as exact rational division (the values the claims exercise are exact); when
`total_tests` is zero the division raises `ZeroDivisionError`, modelled as
`none`. -/
def success_rate (t : BuildTester) : Option ℚ :=
  if t.total_tests = 0 then none
  else some (((t.passed_tests : ℚ) / (t.total_tests : ℚ)) * 100)

/-- `generate_report`, reduced to its observable effects: `none` when the
success-rate division raises (zero total), otherwise `some` of the boolean the
function returns — `True` exactly when `failed_tests == 0` (the early
`return False` branch fires on any failure). -/
def generate_report (t : BuildTester) : Option Bool :=
  match success_rate t with
  | none => none
  | some _ => some (t.failed_tests == 0)

/-- The one-decimal rendering `f"{(passed/total)*100:.1f}"` of the report, on
the counters themselves: the value `(passed/total)*100`, in tenths, printed
with one decimal digit.  Exact for the multiples of one tenth the claims
exercise (general float rounding is outside the model). -/
def pct_1f (passed total : Nat) : String :=
  let tenths := passed * 1000 / total
  toString (tenths / 10) ++ "." ++ toString (tenths % 10)

/-- `main` of `build_test_all.py` after its precondition checks: build the
tester with `show_warnings = not args.hide_warnings`, run `test_all_modules`,
then `generate_report`; exit 0 when the report returns `True`, 1 when it
returns `False`, and terminate abnormally (`none`) when the report raises.
`continueOnFail` is parsed (and printed) but never consulted, exactly as
`args.continue_on_fail` in the source. -/
def full_main (env : Env) (dirEx : String → Bool) (root : String)
    (hideWarnings : Bool) (continueOnFail : Bool) : RunState × Option Nat :=
  let t0 : BuildTester := { initTester root with show_warnings := !hideWarnings }
  let fin := test_all_modules env dirEx { tester := t0, trace := [] }
  match generate_report fin.tester with
  | none => (fin, none)
  | some ok => (fin, some (if ok then 0 else 1))

/-- The aggregate counters of a tester agree with the corresponding folds over
its result log. -/
def countersEqualFolds (t : BuildTester) : Prop :=
  t.passed_tests = (t.results.filter (fun r => r.success)).length ∧
  t.failed_tests = (t.results.filter (fun r => !r.success)).length ∧
  t.total_tests = t.passed_tests + t.failed_tests ∧
  t.total_tests = t.results.length ∧
  t.warnings_count = (t.results.map (fun r => r.warnings.length)).sum

/-- Spec-side definition (follows the orchestration plan of the spec, section
4.5): the number of build steps planned for one module descriptor — none for a
test-only module; otherwise two library builds when there are neither examples
nor binaries, one build per binary except the excluded `main_container`, and
two builds (workspace and module folder) per example. -/
def plannedSteps (c : ModuleConfig) : Nat :=
  if c.test_only then 0
  else (if c.examples.isEmpty && c.binaries.isEmpty then 2 else 0)
    + (c.binaries.filter (fun b => !(b == "main_container"))).length
    + 2 * c.examples.length

/-- Spec-side definition: the total number of build steps the spec plans for
the whole registry. -/
def totalPlannedSteps : Nat := (modules.map (fun mc => plannedSteps mc.2)).sum

end BuildTestAll

namespace QuickTest

/-- `test_module_build` of `test_working_modules.py`, as a pure function of
the subprocess outcome: `(returncode == 0, stderr)` on completion, a synthetic
`"Timeout"` on `TimeoutExpired`, and the exception message itself on any other
exception.  Every constructor is handled — nothing propagates. -/
def test_module_build : ProcOutcome → Bool × String
  | ProcOutcome.completed rc _ se => (rc == 0, se)
  | ProcOutcome.timedOut => (false, "Timeout")
  | ProcOutcome.exc m => (false, m)

/-- `test_binary_build` of `test_working_modules.py`: same shape as
`test_module_build`. -/
def test_binary_build : ProcOutcome → Bool × String
  | ProcOutcome.completed rc _ se => (rc == 0, se)
  | ProcOutcome.timedOut => (false, "Timeout")
  | ProcOutcome.exc m => (false, m)

/-- The state accumulated by `main` of the quick probe: the working and broken
lists plus the trace of subprocess invocations issued so far. -/
structure QuickState where
  working : List String
  broken : List (String × String)
  trace : List Invocation
  deriving DecidableEq, Repr

/-- The fixed module list of the quick probe, in order. -/
def quick_modules : List String :=
  ["blinky", "bme280-embassy", "wifi-embassy", "wifi-synchronous",
   "serial-console-embassy", "mqtt-embassy", "main-app", "iot-common",
   "iot-container", "iot-hal", "iot-performance"]

/-- The two binary targets probed after the modules. -/
def quick_binaries : List String := ["main", "main_container"]

/-- Issue one subprocess invocation of the quick probe: timeout 120 seconds
(`timeout=120` in the source), working directory inherited from the caller
(modelled as the empty string). -/
def runQuickCmd (env : Env) (st : QuickState) (cmd : List String) :
    ProcOutcome × QuickState :=
  (env st.trace.length ⟨cmd, "", 120⟩, { st with trace := st.trace ++ [⟨cmd, "", 120⟩] })

/-- The truncated error stored with a broken entry:
`error[:100] if error else "Unknown error"`. -/
def brokenErr (error : String) : String :=
  if error = "" then "Unknown error" else error.take 100

/-- Body of the module loop of the quick probe: one
`cargo build --release -p module`; on success the module joins the working
list, otherwise the broken list with its truncated error. -/
def quickModuleStep (env : Env) (st : QuickState) (module : String) : QuickState :=
  let r := runQuickCmd env st ["cargo", "build", "--release", "-p", module]
  let o := test_module_build r.1
  if o.1 then { r.2 with working := r.2.working ++ [module] }
  else { r.2 with broken := r.2.broken ++ [(module, brokenErr o.2)] }

/-- Body of the binary loop of the quick probe: one
`cargo build --release --bin binary`; the list entries carry the
`" (binary)"` suffix. -/
def quickBinaryStep (env : Env) (st : QuickState) (binary : String) : QuickState :=
  let r := runQuickCmd env st ["cargo", "build", "--release", "--bin", binary]
  let o := test_binary_build r.1
  if o.1 then { r.2 with working := r.2.working ++ [binary ++ " (binary)"] }
  else { r.2 with broken := r.2.broken ++ [(binary ++ " (binary)", brokenErr o.2)] }

/-- `main` of the quick probe up to its return value: the module loop followed
by the binary loop, starting from empty lists. -/
def quick_run (env : Env) : QuickState :=
  quick_binaries.foldl (quickBinaryStep env)
    (quick_modules.foldl (quickModuleStep env) ⟨[], [], []⟩)

/-- The process exit code of the quick probe:
`sys.exit(0 if len(broken) == 0 else 1)` (via `main`'s return value). -/
def quick_exit (env : Env) : Nat :=
  if (quick_run env).broken.length = 0 then 0 else 1

end QuickTest

/-! ### Concrete oracles used by the closed theorems -/

/-- An external tool for which every invocation times out. -/
def envTO : Env := fun _ _ => ProcOutcome.timedOut

/-- An external tool for which every invocation exits 0 with empty output. -/
def envOK : Env := fun _ _ => ProcOutcome.completed 0 "" ""

/-- An external tool for which `cargo clean` succeeds and every build times
out. -/
def envBuildsTimeOut : Env := fun _ inv =>
  if inv.cmd = ["cargo", "clean"] then ProcOutcome.completed 0 "" ""
  else ProcOutcome.timedOut

/-- An external tool for which only the library build of `iot-hal` fails
(exit code 1, stderr `"boom"`) and everything else succeeds. -/
def envIotHalFails : Env := fun _ inv =>
  if inv.cmd = ["cargo", "build", "--release", "-p", "iot-hal"]
  then ProcOutcome.completed 1 "" "boom"
  else ProcOutcome.completed 0 "" ""

/-- A filesystem on which every path exists. -/
def allDirs : String → Bool := fun _ => true

/-- A filesystem on which no path exists. -/
def noDirs : String → Bool := fun _ => false

/-- The tester counters of the spec's worked percentage example:
4 attempts, 3 passed. -/
def tester34 : BuildTestAll.BuildTester :=
  { workspace_root := "", results := [], total_tests := 4, passed_tests := 3,
    failed_tests := 1, warnings_count := 0, show_warnings := true }

/-! ### Helper lemmas -/

theorem foldl_preserves {α σ : Type} (P : σ → Prop) (f : σ → α → σ)
    (H : ∀ s a, P s → P (f s a)) :
    ∀ (l : List α) (s : σ), P s → P (l.foldl f s) := by
  intro l
  induction l with
  | nil => intro s hs; simpa using hs
  | cons a t ih => intro s hs; simpa using ih (f s a) (H s a hs)

theorem foldl_if_append {α β : Type} (p : α → Bool) (g : α → β) :
    ∀ (l : List α) (acc : List β),
      l.foldl (fun w a => if p a then w ++ [g a] else w) acc
        = acc ++ (l.filter p).map g := by
  intro l
  induction l with
  | nil => intro acc; simp
  | cons a t ih =>
    intro acc
    cases hp : p a <;> simp [List.filter_cons, hp, ih]

theorem if_isEmpty_add {α : Type} (l : List α) (n : Nat) :
    (if l.isEmpty then n else n + l.length) = n + l.length := by
  cases l <;> simp

theorem startsWithChars_refl : ∀ l : List Char, startsWithChars l l = true := by
  intro l
  induction l with
  | nil => rfl
  | cons a as ih => simp [startsWithChars, ih]

theorem containsChars_self : ∀ l : List Char, containsChars l l = true := by
  intro l
  cases l with
  | nil => rfl
  | cons a as => simp [containsChars, startsWithChars_refl]

theorem containsChars_append_self :
    ∀ (pre l : List Char), containsChars l (pre ++ l) = true := by
  intro pre
  induction pre with
  | nil => intro l; simpa using containsChars_self l
  | cons a as ih =>
    intro l
    show containsChars l (a :: (as ++ l)) = true
    simp [containsChars, ih l]

theorem pyContains_append_self (pre m : String) :
    pyContains (pre ++ m) m = true := by
  unfold pyContains
  rw [String.data_append]
  exact containsChars_append_self pre.data m.data

namespace BuildTestAll

theorem record_result_counters (t : BuildTester) (d : String) (s : Bool) (so se : String)
    (h : countersEqualFolds t) : countersEqualFolds (record_result t d s so se) := by
  obtain ⟨h1, h2, h3, h4, h5⟩ := h
  refine ⟨?_, ?_, ?_, ?_, ?_⟩ <;>
    simp only [record_result, List.filter_append, List.length_append, List.map_append,
      List.sum_append, if_isEmpty_add] <;>
    cases s <;>
    simp_all [List.filter_cons] <;> omega

/-- The run-wide invariant: counters match the folds, and every invocation so
far was issued with the 300-second timeout. -/
def GoodState (st : RunState) : Prop :=
  countersEqualFolds st.tester ∧ ∀ inv ∈ st.trace, inv.timeoutSecs = 300

theorem initRun_good (root : String) : GoodState (initRun root) := by
  refine ⟨⟨rfl, rfl, rfl, rfl, rfl⟩, ?_⟩
  intro inv h
  simp [initRun] at h

theorem runCommandFull_good (env : Env) (st : RunState) (cmd : List String) (cwd : String)
    (h : GoodState st) : GoodState (runCommandFull env st cmd cwd).2 := by
  refine ⟨h.1, ?_⟩
  intro inv hinv
  simp only [runCommandFull, List.mem_append, List.mem_singleton] at hinv
  rcases hinv with h2 | rfl
  · exact h.2 inv h2
  · rfl

theorem clean_workspace_good (env : Env) (st : RunState)
    (h : GoodState st) : GoodState (clean_workspace env st).2 :=
  runCommandFull_good env st _ _ h

theorem test_workspace_build_good (env : Env) (st : RunState) (module : String)
    (ex ft : Option String) (h : GoodState st) :
    GoodState (test_workspace_build env st module ex ft).2 := by
  refine ⟨?_, ?_⟩
  · exact record_result_counters _ _ _ _ _ h.1
  · exact (runCommandFull_good env st _ _ h).2

theorem test_module_build_good (env : Env) (dirEx : String → Bool) (st : RunState)
    (module : String) (ex ft : Option String) (h : GoodState st) :
    GoodState (test_module_build env dirEx st module ex ft).2 := by
  unfold test_module_build
  by_cases hd : dirEx (st.tester.workspace_root ++ "/" ++ module) <;> simp only [hd]
  · refine ⟨?_, ?_⟩
    · exact record_result_counters _ _ _ _ _ h.1
    · exact (runCommandFull_good env st _ _ h).2
  · simpa using h

theorem binaryStep_good (env : Env) (module : String) (st : RunState) (binary : String)
    (h : GoodState st) : GoodState (binaryStep env module st binary) := by
  unfold binaryStep
  by_cases hb : binary == "main_container" <;> simp only [hb]
  · simpa using h
  · have hc := clean_workspace_good env st h
    refine ⟨?_, ?_⟩
    · exact record_result_counters _ _ _ _ _ hc.1
    · exact (runCommandFull_good env _ _ _ hc).2

theorem exampleWsStep_good (env : Env) (module : String) (config : ModuleConfig)
    (st : RunState) (ex : String) (h : GoodState st) :
    GoodState (exampleWsStep env module config st ex) :=
  test_workspace_build_good env _ module _ _ (clean_workspace_good env st h)

theorem exampleModStep_good (env : Env) (dirEx : String → Bool) (module : String)
    (config : ModuleConfig) (st : RunState) (ex : String) (h : GoodState st) :
    GoodState (exampleModStep env dirEx module config st ex) :=
  test_module_build_good env dirEx _ module _ _ (clean_workspace_good env st h)

theorem testModule_good (env : Env) (dirEx : String → Bool) (st : RunState)
    (module : String) (config : ModuleConfig) (h : GoodState st) :
    GoodState (testModule env dirEx st module config) := by
  have hc := clean_workspace_good env st h
  simp only [testModule]
  split
  · exact hc
  · split
    · exact hc
    · apply foldl_preserves _ _ (fun s a hs => exampleModStep_good env dirEx module config s a hs)
      apply foldl_preserves _ _ (fun s a hs => exampleWsStep_good env module config s a hs)
      apply foldl_preserves _ _ (fun s a hs => binaryStep_good env module s a hs)
      split
      · exact test_module_build_good env dirEx _ module none config.features
          (clean_workspace_good env _
            (test_workspace_build_good env _ module none config.features hc))
      · exact hc

theorem test_all_modules_good (env : Env) (dirEx : String → Bool) (st : RunState)
    (h : GoodState st) : GoodState (test_all_modules env dirEx st) :=
  foldl_preserves _ _ (fun s mc hs => testModule_good env dirEx s mc.1 mc.2 hs) modules st h

end BuildTestAll

namespace QuickTest

/-- Every invocation the quick probe has issued so far used the 120-second
timeout. -/
def QGood (st : QuickState) : Prop := ∀ inv ∈ st.trace, inv.timeoutSecs = 120

theorem runQuickCmd_qgood (env : Env) (st : QuickState) (cmd : List String)
    (h : QGood st) : QGood (runQuickCmd env st cmd).2 := by
  intro inv hinv
  simp only [runQuickCmd, List.mem_append, List.mem_singleton] at hinv
  rcases hinv with h2 | rfl
  · exact h inv h2
  · rfl

theorem quickModuleStep_qgood (env : Env) (st : QuickState) (module : String)
    (h : QGood st) : QGood (quickModuleStep env st module) := by
  have h2 := runQuickCmd_qgood env st ["cargo", "build", "--release", "-p", module] h
  simp only [quickModuleStep]
  split <;> exact h2

theorem quickBinaryStep_qgood (env : Env) (st : QuickState) (binary : String)
    (h : QGood st) : QGood (quickBinaryStep env st binary) := by
  have h2 := runQuickCmd_qgood env st ["cargo", "build", "--release", "--bin", binary] h
  simp only [quickBinaryStep]
  split <;> exact h2

theorem quick_run_qgood (env : Env) : QGood (quick_run env) := by
  apply foldl_preserves _ _ (fun s a hs => quickBinaryStep_qgood env s a hs)
  apply foldl_preserves _ _ (fun s a hs => quickModuleStep_qgood env s a hs)
  intro inv h
  simp at h

end QuickTest

/-! ### Claim theorems -/

set_option maxRecDepth 8000

open BuildTestAll

/-- C1: in the full runner the aggregate counters equal the folds over the
result log at every point between build attempts: they hold of the freshly
initialised tester, every call to `record_result` preserves them while
appending exactly one record to the log, and consequently they hold after a
complete run for every behavior of the external tool and of the filesystem. -/
theorem record_result_fold_invariant :
    (∀ root, countersEqualFolds (initTester root)) ∧
    (∀ t d s so se, countersEqualFolds t →
      countersEqualFolds (record_result t d s so se) ∧
      (record_result t d s so se).results
        = t.results ++ [⟨d, s, so, se, detect_warnings so se⟩]) ∧
    (∀ env dirEx root,
      countersEqualFolds (test_all_modules env dirEx (initRun root)).tester) := by
  refine ⟨fun root => ⟨rfl, rfl, rfl, rfl, rfl⟩, ?_, ?_⟩
  · intro t d s so se h
    exact ⟨record_result_counters t d s so se h, rfl⟩
  · intro env dirEx root
    exact (test_all_modules_good env dirEx _ (initRun_good root)).1

/-- Witness for C1: the invariant theorem applied to the fresh tester and one
concrete recorded attempt. -/
theorem record_result_fold_invariant_witness :
    countersEqualFolds (record_result (initTester "/ws") "d" true "" "") ∧
    (record_result (initTester "/ws") "d" true "" "").results
      = (initTester "/ws").results ++ [⟨"d", true, "", "", detect_warnings "" ""⟩] :=
  record_result_fold_invariant.2.1 (initTester "/ws") "d" true "" ""
    ⟨rfl, rfl, rfl, rfl, rfl⟩

/-- C2 counterexample: `detect_warnings` does not return the matching lines of
the combined text themselves — it returns them with surrounding whitespace
stripped.  With `stdout = "  warning: x"` and empty `stderr` the matching
line of the split is `"  warning: x"`, yet the returned list holds
`"warning: x"`. -/
theorem detect_warnings_strips_cex :
    detect_warnings "  warning: x" "" = ["warning: x"] ∧
    (pySplitNl ("  warning: x" ++ "\n" ++ "")).filter lineMatches = ["  warning: x"] ∧
    detect_warnings "  warning: x" ""
      ≠ (pySplitNl ("  warning: x" ++ "\n" ++ "")).filter lineMatches :=
  ⟨by decide, by decide, by decide⟩

/-- C2 (amended): `detect_warnings` returns the whitespace-stripped forms of
exactly the lines of `stdout ++ "\n" ++ stderr` whose lowercased form contains
at least one of the six markers — one entry per matching line however many
markers match, in line order, empty when no line matches — so the warning
count of a record is the number of matching lines. -/
theorem detect_warnings_filter_map : ∀ so se : String,
    detect_warnings so se
      = ((pySplitNl (so ++ "\n" ++ se)).filter lineMatches).map pyStrip ∧
    (detect_warnings so se).length
      = ((pySplitNl (so ++ "\n" ++ se)).filter lineMatches).length ∧
    (∀ line, lineMatches line = true
      ↔ ∃ p ∈ warning_patterns, pyContains (pyLower line) p = true) := by
  intro so se
  have h := foldl_if_append lineMatches pyStrip (pySplitNl (so ++ "\n" ++ se)) []
  refine ⟨by simpa [detect_warnings] using h, ?_, ?_⟩
  · rw [show detect_warnings so se
        = ((pySplitNl (so ++ "\n" ++ se)).filter lineMatches).map pyStrip
      from by simpa [detect_warnings] using h]
    exact List.length_map _ _
  · intro line
    simp [lineMatches, List.any_eq_true]

/-- C3: the command runners turn every possible subprocess outcome into a
plain result and never raise: success is exactly "the process exited 0"; a
timeout becomes a failure carrying the synthetic timed-out message; any other
invocation exception becomes a failure whose stderr component carries the
exception message (`"Command failed: " ++ msg` in the full runner — the
message occurs in it as a substring — and `msg` verbatim in the quick probe).
The full runner issues every invocation of a run with the 300-second timeout
and the quick probe with the 120-second timeout. -/
theorem command_runner_result_shape :
    (∀ rc so se, run_command (ProcOutcome.completed rc so se)
        = (rc == 0, pyStrip so, pyStrip se)) ∧
    (∀ rc so se, ((run_command (ProcOutcome.completed rc so se)).1 = true ↔ rc = 0)) ∧
    (run_command ProcOutcome.timedOut = (false, "", "Command timed out after 5 minutes")) ∧
    (∀ m, run_command (ProcOutcome.exc m) = (false, "", "Command failed: " ++ m)) ∧
    (∀ m, pyContains (run_command (ProcOutcome.exc m)).2.2 m = true) ∧
    (∀ env dirEx root,
      ((test_all_modules env dirEx (initRun root)).trace.all
        (fun inv => inv.timeoutSecs == 300)) = true) ∧
    (∀ rc so se, QuickTest.test_module_build (ProcOutcome.completed rc so se) = (rc == 0, se)) ∧
    (QuickTest.test_module_build ProcOutcome.timedOut = (false, "Timeout")) ∧
    (∀ m, QuickTest.test_module_build (ProcOutcome.exc m) = (false, m)) ∧
    (∀ rc so se, QuickTest.test_binary_build (ProcOutcome.completed rc so se) = (rc == 0, se)) ∧
    (QuickTest.test_binary_build ProcOutcome.timedOut = (false, "Timeout")) ∧
    (∀ m, QuickTest.test_binary_build (ProcOutcome.exc m) = (false, m)) ∧
    (∀ env, ((QuickTest.quick_run env).trace.all
        (fun inv => inv.timeoutSecs == 120)) = true) := by
  refine ⟨fun _ _ _ => rfl, ?_, rfl, fun _ => rfl, ?_, ?_,
    fun _ _ _ => rfl, rfl, fun _ => rfl, fun _ _ _ => rfl, rfl, fun _ => rfl, ?_⟩
  · intro rc so se
    simp [run_command]
  · intro m
    exact pyContains_append_self "Command failed: " m
  · intro env dirEx root
    rw [List.all_eq_true]
    intro inv hinv
    simpa using (test_all_modules_good env dirEx _ (initRun_good root)).2 inv hinv
  · intro env
    rw [List.all_eq_true]
    intro inv hinv
    simpa using QuickTest.quick_run_qgood env inv hinv

/-- C4: when the `cargo clean` at the head of a module's test sequence fails,
the module contributes nothing: `testModule` returns the incoming state with
only the clean invocation appended to the trace — no build command is issued,
no record appended, no counter changed — and the module loop simply continues
with that state.  Moreover, even when every clean fails (a tool that always
times out), the run still visits all twelve registry modules, issuing exactly
one clean per module; it is never aborted. -/
theorem clean_failure_skips_module :
    (∀ env dirEx st module config,
      (run_command
        (env st.trace.length ⟨["cargo", "clean"], st.tester.workspace_root, 300⟩)).1 = false →
      testModule env dirEx st module config
        = { st with trace := st.trace ++ [⟨["cargo", "clean"], st.tester.workspace_root, 300⟩] }) ∧
    (test_all_modules envTO allDirs (initRun "/ws")).trace
      = modules.map (fun _ => ⟨["cargo", "clean"], "/ws", 300⟩) := by
  constructor
  · intro env dirEx st module config h
    simp [testModule, clean_workspace, runCommandFull, h]
  · decide

/-- Witness for C4: a timing-out tool fails the clean, and the module is
skipped with only the clean in the trace. -/
theorem clean_failure_skips_module_witness :
    (run_command (envTO (initRun "/ws").trace.length
        ⟨["cargo", "clean"], (initRun "/ws").tester.workspace_root, 300⟩)).1 = false ∧
    testModule envTO allDirs (initRun "/ws") "blinky" { examples := [], features := none }
      = { initRun "/ws" with
          trace := (initRun "/ws").trace
            ++ [⟨["cargo", "clean"], (initRun "/ws").tester.workspace_root, 300⟩] } :=
  ⟨rfl, clean_failure_skips_module.1 envTO allDirs (initRun "/ws") "blinky"
    { examples := [], features := none } rfl⟩

/-- C5 counterexample: with an external tool for which every invocation
(including `cargo clean`) times out, the full run records nothing at all — the
initial clean of every module fails, so every module is skipped — leaving
`total_tests = 0`, which differs from the 41 planned build steps of the
registry; in particular no build step is recorded as failed with the timeout
message, contradicting the claim. -/
theorem all_timeout_run_cex :
    (test_all_modules envTO allDirs (initRun "/ws")).tester.total_tests = 0 ∧
    (test_all_modules envTO allDirs (initRun "/ws")).tester.results = [] ∧
    totalPlannedSteps = 41 ∧
    (test_all_modules envTO allDirs (initRun "/ws")).tester.total_tests
      ≠ totalPlannedSteps :=
  ⟨by decide, by decide, by decide, by decide⟩

/-- C5 (amended): if every build invocation times out while the cleans
succeed, then every planned build step is attempted and recorded as failed
with the timeout message as its stderr, and `total_tests` equals the 41
planned build steps; if the cleans time out as well, every module is skipped
at its initial clean and the result log stays empty with `total_tests = 0`. -/
theorem timeout_run_records :
    ((test_all_modules envBuildsTimeOut allDirs (initRun "/ws")).tester.total_tests
        = totalPlannedSteps ∧
      (test_all_modules envBuildsTimeOut allDirs (initRun "/ws")).tester.failed_tests = 41 ∧
      (test_all_modules envBuildsTimeOut allDirs (initRun "/ws")).tester.results.all
        (fun r => !r.success && (r.stderr == "Command timed out after 5 minutes")) = true) ∧
    ((test_all_modules envTO allDirs (initRun "/ws")).tester.results = [] ∧
      (test_all_modules envTO allDirs (initRun "/ws")).tester.total_tests = 0) :=
  ⟨⟨by decide, by decide, by decide⟩, ⟨by decide, by decide⟩⟩

/-- C6 counterexample: on a reachable zero-total state (every clean times out,
so nothing is recorded) the success-rate division of `generate_report` is a
division by zero — the function raises `ZeroDivisionError` (modelled `none`)
instead of completing, contradicting the claim that report generation still
completes when total is zero. -/
theorem report_zero_total_cex :
    generate_report (test_all_modules envTO allDirs (initRun "/ws")).tester = none ∧
    (test_all_modules envTO allDirs (initRun "/ws")).tester.total_tests = 0 :=
  ⟨by decide, by decide⟩

/-- C6 (amended): the report's success percentage is `passed/total × 100`
rendered with one decimal place — for `total = 4, passed = 3` the value is
`75` and it renders as `"75.0"` — but when `total_tests` is zero the division
raises and report generation fails (`none`) rather than completing; the report
completes exactly when `total_tests` is nonzero. -/
theorem success_rate_value_and_zero_total :
    success_rate tester34 = some 75 ∧
    pct_1f tester34.passed_tests tester34.total_tests = "75.0" ∧
    (∀ t, generate_report t = none ↔ t.total_tests = 0) := by
  refine ⟨?_, by decide, ?_⟩
  · simp [success_rate, tester34]
    norm_num
  · intro t
    by_cases h : t.total_tests = 0 <;> simp [generate_report, success_rate, h]

/-- C7: a registry entry carrying the test-only marker is skipped right after
its initial clean: `testModule` leaves the tester — result log and all
counters — unchanged, whatever the module's declared examples or binaries and
whatever the external tool does. -/
theorem test_only_module_records_nothing :
    ∀ env dirEx st module config, config.test_only = true →
      (testModule env dirEx st module config).tester = st.tester := by
  intro env dirEx st module config h
  simp only [testModule]
  cases hc : (clean_workspace env st).1 <;> simp [hc, h, clean_workspace, runCommandFull]

/-- Witness for C7: the `iot-hal` registry row (test-only) under an
always-succeeding tool records nothing. -/
theorem test_only_module_records_nothing_witness :
    ({ examples := [], features := none, test_only := true } : ModuleConfig).test_only = true ∧
    (testModule envOK allDirs (initRun "/ws") "iot-hal"
        { examples := [], features := none, test_only := true }).tester
      = (initRun "/ws").tester :=
  ⟨rfl, test_only_module_records_nothing envOK allDirs (initRun "/ws") "iot-hal"
    { examples := [], features := none, test_only := true } rfl⟩

/-- C8: with a tool for which exactly the `iot-hal` library build fails (and
every other module and both binaries succeed), the quick probe's broken list
is exactly the one `iot-hal` entry, its working list is the ten remaining
modules followed by both binary entries, and the process exits 1; in general
the quick probe exits 0 exactly when the broken list is empty. -/
theorem quick_probe_iot_hal_broken :
    (QuickTest.quick_run envIotHalFails).broken = [("iot-hal", "boom")] ∧
    (QuickTest.quick_run envIotHalFails).working
      = ["blinky", "bme280-embassy", "wifi-embassy", "wifi-synchronous",
         "serial-console-embassy", "mqtt-embassy", "main-app", "iot-common",
         "iot-container", "iot-performance", "main (binary)", "main_container (binary)"] ∧
    QuickTest.quick_exit envIotHalFails = 1 ∧
    (∀ env, QuickTest.quick_exit env = 0 ↔ (QuickTest.quick_run env).broken = []) := by
  refine ⟨by decide, by decide, by decide, ?_⟩
  intro env
  by_cases h : (QuickTest.quick_run env).broken = [] <;>
    simp [QuickTest.quick_exit, h, List.length_eq_zero]

/-- C9: the `--continue-on-fail` flag changes nothing: two runs of the full
runner that differ only in that flag produce identical final states — the
same invocation trace (hence the same sequence of build attempts), the same
result log and counters — and the same process exit code. -/
theorem continue_on_fail_flag_no_op :
    ∀ env dirEx root hideWarnings,
      full_main env dirEx root hideWarnings true
        = full_main env dirEx root hideWarnings false :=
  fun _ _ _ _ => rfl

/-- C10: when a module's own directory is missing, `test_module_build` of the
full runner returns `False` with the state untouched: no subprocess invocation
is issued (trace unchanged) and no record or counter changes (tester
unchanged), so the planned module-folder step leaves no mark in the report. -/
theorem missing_module_dir_no_record :
    ∀ env dirEx st module ex ft,
      dirEx (st.tester.workspace_root ++ "/" ++ module) = false →
      test_module_build env dirEx st module ex ft = (false, st) := by
  intro env dirEx st module ex ft h
  simp [test_module_build, h]

/-- Witness for C10: on a filesystem with no directories, the module-folder
build of `blinky` is a no-op returning `False`. -/
theorem missing_module_dir_no_record_witness :
    noDirs ((initRun "/ws").tester.workspace_root ++ "/" ++ "blinky") = false ∧
    test_module_build envOK noDirs (initRun "/ws") "blinky" none none
      = (false, initRun "/ws") :=
  ⟨rfl, missing_module_dir_no_record envOK noDirs (initRun "/ws") "blinky" none none rfl⟩
